import Mathlib

/-!
Verification of the DXNN-OCR-cpp OCR service against its specification.

The C++ sources are shallowly embedded as executable Lean definitions:
`float`/`double` values become `ℚ`, machine integers become `ℤ`/`ℕ`
(overflow never matters at the modelled ranges), `cv::Mat` becomes an
abstract pixel matrix carrying only its dimensions and an opaque content
tag, and external collaborators (the inference engine, the image codec,
Poppler, the HTTP framework) become explicit environment parameters, as
the spec scopes them out behind contracts.
-/

namespace DXNNOCR

/-! ## Pixel matrices

`cv::Mat` modelled by its dimensions plus an opaque content tag; `empty()`
is true exactly when a dimension is zero. -/

structure Image where
  rows : ℕ
  cols : ℕ
  tag : ℕ
  deriving DecidableEq, Repr

def Image.isEmpty (m : Image) : Bool :=
  m.rows == 0 || m.cols == 0

/-! ## Geometry of OCR results (src/src/pipeline/ocr_pipeline.cpp)

`cv::Point2f` over `ℚ`.  `PipelineOCRResult.box` always holds exactly four
vertices in the pipeline (`box_points(4)` in `OCRPipeline::process`), so the
box is modelled as a 4-point record; the `box.size() != 4` guards of
`getBoundingRect`/`getCenter` are therefore never taken. -/

structure Pt where
  x : ℚ
  y : ℚ
  deriving DecidableEq, Repr

structure TextBox where
  p0 : Pt
  p1 : Pt
  p2 : Pt
  p3 : Pt
  deriving DecidableEq, Repr

structure PipelineOCRResult where
  box : TextBox
  text : String
  confidence : ℚ
  index : ℤ
  deriving DecidableEq, Repr

/-- Mean of the four vertices (`PipelineOCRResult::getCenter`). -/
def PipelineOCRResult.getCenter (r : PipelineOCRResult) : Pt :=
  ⟨(r.box.p0.x + r.box.p1.x + r.box.p2.x + r.box.p3.x) / 4,
   (r.box.p0.y + r.box.p1.y + r.box.p2.y + r.box.p3.y) / 4⟩

def TextBox.minY (b : TextBox) : ℚ :=
  min (min (min b.p0.y b.p1.y) b.p2.y) b.p3.y

def TextBox.maxY (b : TextBox) : ℚ :=
  max (max (max b.p0.y b.p1.y) b.p2.y) b.p3.y

/-- Height of `PipelineOCRResult::getBoundingRect`: `cv::Rect` stores
`static_cast<int>(max_y - min_y)`; the cast truncates toward zero and the
difference is nonnegative, so it equals the floor. -/
def PipelineOCRResult.rectHeight (r : PipelineOCRResult) : ℤ :=
  ⌊r.box.maxY - r.box.minY⌋

/-- `OCRPipeline::compareOCRResults`: same-row tolerance is half the smaller
bounding-rectangle height; same row compares center x, otherwise center y. -/
def compareOCRResults (a b : PipelineOCRResult) : Bool :=
  let ca := a.getCenter
  let cb := b.getCenter
  let rowThreshold : ℚ := ((min a.rectHeight b.rectHeight : ℤ) : ℚ) / 2
  let yDiff : ℚ := |ca.y - cb.y|
  if yDiff < rowThreshold then decide (ca.x < cb.x) else decide (ca.y < cb.y)

/-! ## Sorting

`std::sort` is modelled by insertion sort: for the short result lists of a
page it is exactly what libstdc++/libc++ run (final insertion pass below the
introsort threshold), and for a strict-weak-order comparator its output is a
comparator-sorted permutation, which is all `std::sort` guarantees. -/

def orderedInsertBy {α : Type} (lt : α → α → Bool) (a : α) : List α → List α
  | [] => [a]
  | b :: l => if lt a b then a :: b :: l else b :: orderedInsertBy lt a l

def insertionSortBy {α : Type} (lt : α → α → Bool) : List α → List α
  | [] => []
  | b :: l => orderedInsertBy lt b (insertionSortBy lt l)

/-- `OCRPipeline::sortOCRResults`. -/
def sortOCRResults (results : List PipelineOCRResult) : List PipelineOCRResult :=
  insertionSortBy compareOCRResults results

/-- The first box sort in `OCRPipeline::process`: by first vertex `(y, x)`
with a `1.0` same-line tolerance on y. -/
def compareBoxesByFirstPoint (a b : TextBox) : Bool :=
  if |a.p0.y - b.p0.y| < 1 then decide (a.p0.x < b.p0.x) else decide (a.p0.y < b.p0.y)

/-- Swap condition of the bubble refinement loop in `OCRPipeline::process`
(`next` is `boxes[j+1]`, `prev` is `boxes[j]`). -/
def refineSwapCond (next prev : TextBox) : Bool :=
  decide (|next.p0.y - prev.p0.y| < 10) && decide (next.p0.x < prev.p0.x)

/-- Inner loop of the refinement: element `x` bubbles left through the
already-processed elements (given right-to-left) while the swap condition
holds, stopping at the first failure (`break`). -/
def bubbleInsertRev (x : TextBox) : List TextBox → List TextBox
  | [] => [x]
  | h :: t => if refineSwapCond x h then h :: bubbleInsertRev x t else x :: h :: t

/-- The double refinement loop of `OCRPipeline::process`: for each `i`,
`boxes[i+1]` bubbles left through `boxes[0..i]` until the swap condition
fails.  The processed elements are kept right-to-left in the accumulator. -/
def refineSortPass (boxes : List TextBox) : List TextBox :=
  (boxes.foldl (fun acc x => bubbleInsertRev x acc) []).reverse

/-- The post-sort re-indexing loop of `OCRPipeline::process`
(`results[i].index = i`). -/
def reindexFrom (n : ℤ) : List PipelineOCRResult → List PipelineOCRResult
  | [] => []
  | r :: t => { r with index := n } :: reindexFrom (n + 1) t

/-! ## Pipeline configuration, environment and `OCRPipeline::process`

Collaborator stages (document preprocessing, detector, perspective crop,
classifier, recognizer) are opaque per the spec; they enter as an explicit
environment.  Wall-clock timing fields of `OCRPipelineStats` are omitted
(real time is out of scope); the box-count fields are modelled. -/

structure OCRPipelineConfig where
  useDocPreprocessing : Bool
  useClassification : Bool
  enableVisualization : Bool
  sortResults : Bool
  /-- rotation-decision threshold used by `TextClassifier::NeedsRotation` -/
  clsThresh : ℚ
  deriving DecidableEq

structure OCRPipelineStats where
  detectedBoxes : ℕ
  rotatedBoxes : ℕ
  recognizedBoxes : ℕ
  recognitionRate : ℚ
  deriving DecidableEq

/-- Result of `DocumentPreprocessingPipeline::Process`. -/
structure DocPreprocResult where
  success : Bool
  processedImage : Image

structure PipelineEnv where
  docPreprocess : Image → DocPreprocResult
  detect : Image → List TextBox
  getRotateCropImage : Image → TextBox → Image
  classify : Image → String × ℚ
  rotate180 : Image → Image
  recognize : Image → String × ℚ

/-- Modelled from the spec (and the call-site comment in
`OCRPipeline::process`, line 275): `TextClassifier::NeedsRotation` is
declared in `text_classifier.h`, which is absent from the sources; the
line-level classifier rotates a crop 180° when the label is "180" and the
confidence exceeds the threshold. -/
def needsRotation (threshold : ℚ) (label : String) (confidence : ℚ) : Bool :=
  label == "180" && decide (threshold < confidence)

/-- Steps 0-1 of `OCRPipeline::process`: the image actually fed to
detection (document preprocessing result when enabled and successful and
nonempty, the input image otherwise). -/
def processedImageOf (cfg : OCRPipelineConfig) (env : PipelineEnv) (image : Image) : Image :=
  if cfg.useDocPreprocessing then
    let r := env.docPreprocess image
    if r.success && !r.processedImage.isEmpty then r.processedImage else image
  else image

/-- Step 3 of `OCRPipeline::process`: perspective-crop each box, skipping
boxes whose crop comes back empty (`continue`). -/
def cropBoxes (env : PipelineEnv) (img : Image) (boxes : List TextBox) :
    List (Image × TextBox) :=
  boxes.filterMap fun b =>
    let crop := env.getRotateCropImage img b
    if crop.isEmpty then none else some (crop, b)

/-- Step 4 of `OCRPipeline::process`: when classification is enabled, rotate
each crop 180° when `NeedsRotation` says so, and count the rotations. -/
def classifyCrops (cfg : OCRPipelineConfig) (env : PipelineEnv)
    (crops : List (Image × TextBox)) : List (Image × TextBox) × ℕ :=
  if cfg.useClassification then
    let tagged := crops.map fun c =>
      let lc := env.classify c.1
      if needsRotation cfg.clsThresh lc.1 lc.2 then ((env.rotate180 c.1, c.2), true)
      else (c, false)
    (tagged.map Prod.fst, (tagged.filter fun t => t.2).length)
  else (crops, 0)

/-- Step 5 of `OCRPipeline::process`: recognize each crop in order; an
entry is appended only when the text is nonempty, with `index` set to the
crop position `i`. -/
def recognizeCrops (env : PipelineEnv) : ℕ → List (Image × TextBox) → List PipelineOCRResult
  | _, [] => []
  | i, c :: t =>
    let tc := env.recognize c.1
    if tc.1 = "" then recognizeCrops env (i + 1) t
    else
      { box := c.2, text := tc.1, confidence := tc.2, index := (i : ℤ) } ::
        recognizeCrops env (i + 1) t

/-- The sorting step of `OCRPipeline::process`: when `sortResults` is on and
the list is nonempty, sort reading-order and rewrite each `index` to the
post-sort position. -/
def finalizeResults (cfg : OCRPipelineConfig) (results : List PipelineOCRResult) :
    List PipelineOCRResult :=
  if cfg.sortResults && !results.isEmpty then reindexFrom 0 (sortOCRResults results)
  else results

structure ProcessOutput where
  ok : Bool
  results : List PipelineOCRResult
  stats : OCRPipelineStats

def zeroStats : OCRPipelineStats :=
  { detectedBoxes := 0, rotatedBoxes := 0, recognizedBoxes := 0, recognitionRate := 0 }

/-- Main branch of `OCRPipeline::process` after detection found boxes. -/
def processMain (cfg : OCRPipelineConfig) (env : PipelineEnv)
    (processedImage : Image) (boxes : List TextBox) : ProcessOutput :=
  let sortedBoxes := refineSortPass (insertionSortBy compareBoxesByFirstPoint boxes)
  let crops := cropBoxes env processedImage sortedBoxes
  let cls := classifyCrops cfg env crops
  let recResults := recognizeCrops env 0 cls.1
  let finalResults := finalizeResults cfg recResults
  { ok := true
    results := finalResults
    stats :=
      { detectedBoxes := boxes.length
        rotatedBoxes := cls.2
        recognizedBoxes := finalResults.length
        recognitionRate := ((finalResults.length : ℚ) / (boxes.length : ℚ)) * 100 } }

/-- `OCRPipeline::process`.  On the early failure returns (uninitialized
pipeline, empty input) the C++ leaves the caller's out-parameters untouched;
they are modelled as empty/zero, which no claim inspects.  When detection
returns no boxes the function succeeds with empty results and zeroed
statistics (lines 200-213). -/
def process (cfg : OCRPipelineConfig) (env : PipelineEnv) (initialized : Bool)
    (image : Image) : ProcessOutput :=
  if initialized = false then { ok := false, results := [], stats := zeroStats }
  else if image.isEmpty then { ok := false, results := [], stats := zeroStats }
  else
    let processedImage := processedImageOf cfg env image
    let boxes := env.detect processedImage
    if boxes.isEmpty then { ok := true, results := [], stats := zeroStats }
    else processMain cfg env processedImage boxes

/-- The reading-order condition of the spec (§8 invariant 3), with the
bounding-rectangle heights computed exactly as `compareOCRResults` does. -/
def sameRow (a b : PipelineOCRResult) : Prop :=
  |a.getCenter.y - b.getCenter.y| < ((min a.rectHeight b.rectHeight : ℤ) : ℚ) / 2

instance (a b : PipelineOCRResult) : Decidable (sameRow a b) := by
  unfold sameRow; infer_instance

/-! ## HTTP server request model (src/server/ocr_handler.cpp)

`ErrorCode` is kept symbolic: `json_response.h` is not among the sources,
and no claim depends on the numeric values. -/

inductive ErrorCode where
  | success
  | invalidParameter
  | unauthorized
  | internalError
  deriving DecidableEq, Repr

inductive ResponseBody where
  | error (code : ErrorCode) (msg : String)
  | ocrSuccess (results : List PipelineOCRResult) (visUrl : String)
  deriving DecidableEq, Repr

structure OCRRequest where
  file : String
  fileType : ℤ
  useDocOrientationClassify : Bool
  useDocUnwarping : Bool
  useTextlineOrientation : Bool
  textDetLimitSideLen : ℤ
  textDetLimitType : String
  textDetThresh : ℚ
  textDetBoxThresh : ℚ
  /-- `textDetUnclipRatio` in the source -/
  textDetUnclipR : ℚ
  textRecScoreThresh : ℚ
  visualize : Bool
  deriving DecidableEq, Repr

/-- Field defaults of `struct OCRRequest` (src/server/ocr_handler.h). -/
def defaultOCRRequest : OCRRequest :=
  { file := "", fileType := 1, useDocOrientationClassify := false
    useDocUnwarping := false, useTextlineOrientation := false
    textDetLimitSideLen := 64, textDetLimitType := "min"
    textDetThresh := 3 / 10, textDetBoxThresh := 3 / 5
    textDetUnclipR := 3 / 2, textRecScoreThresh := 0, visualize := false }

/-- `OCRRequest::Validate`: `none` means valid, `some msg` the error
message of the first failing check.  `textDetLimitSideLen` and
`textDetLimitType` only produce log warnings and never cause rejection. -/
def OCRRequest.validate (req : OCRRequest) : Option String :=
  if req.file = "" then some "Missing required parameter: 'file'"
  else if req.fileType ≠ 1 then
    some "Unsupported fileType: PDF is not implemented (fileType=0)"
  else if req.textDetThresh < 0 ∨ 1 < req.textDetThresh then
    some "textDetThresh must be in range [0.0, 1.0]"
  else if req.textDetBoxThresh < 0 ∨ 1 < req.textDetBoxThresh then
    some "textDetBoxThresh must be in range [0.0, 1.0]"
  else if req.textDetUnclipR < 1 ∨ 3 < req.textDetUnclipR then
    some "textDetUnclipRatio must be in range [1.0, 3.0]"
  else if req.textRecScoreThresh < 0 ∨ 1 < req.textRecScoreThresh then
    some "textRecScoreThresh must be in range [0.0, 1.0]"
  else none

/-! ### `OCRHandler::WaitForResult`

The condition-variable loop is modelled over an abstract execution trace:
`store k id` is the entry of `result_store_` for task `id` as seen at the
`k`-th lock acquisition, and the fuel is the number of waits the deadline
admits; when `wait_until` times out the loop returns failure without a
further lookup. -/

def TaskResultM := List PipelineOCRResult × Image

def waitLoop (store : ℕ → ℤ → Option TaskResultM) (id : ℤ) :
    ℕ → ℕ → Option TaskResultM
  | k, 0 => store k id
  | k, Nat.succ fuel =>
    match store k id with
    | some r => some r
    | none => waitLoop store id (k + 1) fuel

/-- `OCRHandler::WaitForResult` (default timeout 10000 ms, the value
`HandleRequest` passes). -/
def waitForResult (store : ℕ → ℤ → Option TaskResultM) (waits : ℕ) (id : ℤ) :
    Option TaskResultM :=
  waitLoop store id 0 waits

/-- Collaborators of `OCRHandler::HandleRequest`: image loading (base64 /
URL download), pipeline admission, and the result wait. -/
structure HandlerEnv where
  loadImage : OCRRequest → Except String Image
  pushTask : Image → ℤ → Bool
  waitResult : ℤ → Option TaskResultM
  taskId : ℤ
  visUrl : String

/-- `OCRHandler::HandleRequest`: HTTP status plus JSON body.  The happy
path returns 200; validation and load failures 400; a full pipeline queue
503; a missing result (timeout) 500. -/
def handleRequest (env : HandlerEnv) (req : OCRRequest) : ℕ × ResponseBody :=
  match req.validate with
  | some msg => (400, ResponseBody.error ErrorCode.invalidParameter msg)
  | none =>
    match env.loadImage req with
    | Except.error msg => (400, ResponseBody.error ErrorCode.invalidParameter msg)
    | Except.ok img =>
      if env.pushTask img env.taskId then
        match env.waitResult env.taskId with
        | some r => (200, ResponseBody.ocrSuccess r.1 env.visUrl)
        | none =>
          (500, ResponseBody.error ErrorCode.internalError
            "Failed to get OCR results or timeout")
      else (503, ResponseBody.error ErrorCode.internalError "Pipeline queue is full")

/-! ### Authorization middleware (src/server/server_main.cpp)

`std::string` headers are modelled as `List Char`; a missing
`Authorization` header is the empty string (Crow's `get_header_value`).
`auth_header.find("token ") != 0` is exactly "does not start with
`token `". -/

def tokenMarker : List Char := ['t', 'o', 'k', 'e', 'n', ' ']

/-- `haystack` starts with `pat` (models `std::string::find(pat) == 0`). -/
def startsWith : List Char → List Char → Bool
  | [], _ => true
  | _ :: _, [] => false
  | c :: p, d :: h => c == d && startsWith p h

/-- The rejection condition of `AuthMiddleware::before_handle`. -/
def authRejects (header : List Char) : Bool :=
  header.isEmpty || !(startsWith tokenMarker header)

/-- Modelled from the spec: the HTTP framework is an external collaborator
("dispatches handlers"); its contract is that the middleware's
`before_handle` runs first and an ended 401 response skips the route
handler.  `handler` is the `/ocr` route body. -/
def dispatchOcr (header : List Char) (handler : Unit → ℕ × ResponseBody) :
    ℕ × ResponseBody :=
  if authRejects header then
    (401, ResponseBody.error ErrorCode.unauthorized
      "Missing or invalid Authorization token")
  else handler ()

/-! ## PDF rendering (src/server/pdf_handler.cpp, pdf_handler.h)

Poppler is opaque: parsing yields an abstract document (lock state and page
count) and per-page rendering an abstract outcome, both supplied by an
environment.  Error codes are the integer constants of `PDFErrorCode`. -/

def pdfSUCCESS : ℤ := 0
def pdfCONFIG_ERROR : ℤ := 1001
def pdfFORMAT_ERROR : ℤ := 1003
def pdfPASSWORD_REQUIRED : ℤ := 1004
def pdfUNKNOWN_ERROR : ℤ := 2001

structure PDFRenderConfig where
  dpi : ℤ
  maxPages : ℤ
  maxDpi : ℤ
  maxPixelsPerPage : ℤ
  renderTimeoutMs : ℤ
  maxConcurrentRenders : ℤ
  useAlpha : Bool
  deriving DecidableEq, Repr

/-- Field defaults of `struct PDFRenderConfig` (`PDFConstants`). -/
def defaultPDFRenderConfig : PDFRenderConfig :=
  { dpi := 150, maxPages := 10, maxDpi := 300, maxPixelsPerPage := 25000000
    renderTimeoutMs := 30000, maxConcurrentRenders := 4, useAlpha := false }

/-- `PDFRenderConfig::Validate`.  Note the dpi upper bound is the
configuration's own `maxDpi` field (default 300), not the constant
`PDFConstants::MAX_DPI`. -/
def PDFRenderConfig.validate (c : PDFRenderConfig) : Option String :=
  if c.dpi < 72 ∨ c.maxDpi < c.dpi then
    some ("pdfDpi must be in range [72, " ++ toString c.maxDpi ++ "]")
  else if c.maxPages < 1 ∨ 100 < c.maxPages then
    some "pdfMaxPages must be in range [1, 100]"
  else if c.maxConcurrentRenders < 1 ∨ 16 < c.maxConcurrentRenders then
    some "maxConcurrentRenders must be in range [1, 16]"
  else none

structure PdfDocument where
  locked : Bool
  numPages : ℤ
  deriving DecidableEq, Repr

structure PDFPageImage where
  pageIndex : ℤ
  image : Image
  success : Bool
  errorCode : ℤ
  errorMsg : String
  deriving DecidableEq, Repr

/-- What rendering page `i` produces, apart from the `pageIndex` field the
code sets itself. -/
structure PageOutcome where
  success : Bool
  image : Image
  errorCode : ℤ
  errorMsg : String
  deriving DecidableEq, Repr

structure PopplerEnv where
  loadDocument : List ℕ → Option PdfDocument
  renderOutcome : ℕ → PageOutcome

structure PDFRenderResult where
  success : Bool
  errorCode : ℤ
  errorMsg : String
  totalPages : ℤ
  renderedPages : ℤ
  failedPages : ℤ
  pages : List PDFPageImage
  deriving DecidableEq, Repr

def emptyPDFRenderResult : PDFRenderResult :=
  { success := false, errorCode := 0, errorMsg := "", totalPages := 0
    renderedPages := 0, failedPages := 0, pages := [] }

/-- `PDFHandler::RenderPagesParallel`: one future per page index
`0..pageCount-1`; results are collected in index order
(`futures[i].get()`), one `PDFPageImage` per index, its `pageIndex` set to
`i`.  The semaphore only bounds concurrency and does not affect the
collected list. -/
def renderPagesParallel (env : PopplerEnv) (pageCount : ℕ) : List PDFPageImage :=
  (List.range pageCount).map fun i =>
    let o := env.renderOutcome i
    { pageIndex := (i : ℤ), image := o.image, success := o.success
      errorCode := o.errorCode, errorMsg := o.errorMsg }

/-- `PDFHandler::RenderFromMemory`. -/
def renderFromMemory (env : PopplerEnv) (data : List ℕ) (config : PDFRenderConfig) :
    PDFRenderResult :=
  match config.validate with
  | some msg =>
    { emptyPDFRenderResult with errorCode := pdfCONFIG_ERROR, errorMsg := msg }
  | none =>
    match env.loadDocument data with
    | none =>
      { emptyPDFRenderResult with
        errorCode := pdfFORMAT_ERROR
        errorMsg := "Failed to load PDF document" }
    | some doc =>
      if doc.locked then
        { emptyPDFRenderResult with
          errorCode := pdfPASSWORD_REQUIRED
          errorMsg := "PDF is password protected" }
      else if doc.numPages = 0 then
        { emptyPDFRenderResult with
          errorCode := pdfFORMAT_ERROR
          errorMsg := "PDF has no pages" }
      else
        let pagesToRender : ℤ := min doc.numPages config.maxPages
        let pages := renderPagesParallel env pagesToRender.toNat
        let renderedPages : ℤ := (pages.length : ℤ)
        let failedPages : ℤ := ((pages.filter fun p => !p.success).length : ℤ)
        if failedPages = 0 then
          { success := true, errorCode := pdfSUCCESS, errorMsg := "Success"
            totalPages := doc.numPages, renderedPages := renderedPages
            failedPages := failedPages, pages := pages }
        else if failedPages < renderedPages then
          { success := true, errorCode := pdfSUCCESS
            errorMsg := toString failedPages ++ " of " ++ toString renderedPages ++
              " pages failed to render"
            totalPages := doc.numPages, renderedPages := renderedPages
            failedPages := failedPages, pages := pages }
        else
          { success := false
            errorCode := (pages.head?.map fun p => p.errorCode).getD pdfUNKNOWN_ERROR
            errorMsg := (pages.head?.map fun p => p.errorMsg).getD
              "All pages failed to render"
            totalPages := doc.numPages, renderedPages := renderedPages
            failedPages := failedPages, pages := pages }

/-! ## Line-orientation classifier (src/src/classification/text_classifier.cpp)

Tensors carry a shape and optionally their float data (`none` models a null
data pointer).  Out-of-range element reads, which the guarded code never
performs, default to 0. -/

structure Tensor where
  shape : List ℕ
  data : Option (List ℚ)
  deriving DecidableEq, Repr

/-- Modelled from the spec: the `labels_` member is declared in
`text_classifier.h`, which is absent from the sources; the spec's
line-level classifier has the two classes {0°, 180°}. -/
def classifierLabels : List String := ["0", "180"]

/-- `TextClassifier::Postprocess`.  The argmax loop only runs once the
class count is exactly 2, so it reads `data[0]` and `data[1]`; the
confidence is the raw maximum element, with no softmax applied. -/
def postprocess (outputs : List Tensor) : String × ℚ :=
  match outputs with
  | [] => ("0", 0)
  | output :: _ =>
    if output.shape.length < 2 then ("0", 0)
    else
      let numClasses := output.shape.getLastD 0
      if numClasses ≠ 2 then ("0", 0)
      else
        match output.data with
        | none => ("0", 0)
        | some d =>
          let d0 := d.getD 0 0
          let d1 := d.getD 1 0
          let maxIdx := if d0 < d1 then 1 else 0
          (classifierLabels.getD maxIdx "", if d0 < d1 then d1 else d0)

structure ClassifierConfig where
  inputWidth : ℕ
  inputHeight : ℕ
  deriving DecidableEq, Repr

/-- `TextClassifier::Preprocess`: empty in, empty out; otherwise a resize
to the fixed input size (content stays correlated through the tag). -/
def classifierPreprocess (cfg : ClassifierConfig) (img : Image) : Image :=
  if img.isEmpty then { rows := 0, cols := 0, tag := 0 }
  else { rows := cfg.inputHeight, cols := cfg.inputWidth, tag := img.tag }

structure ClassifierEnv where
  run : Image → List Tensor

/-- `TextClassifier::Classify`. -/
def classify (cfg : ClassifierConfig) (env : ClassifierEnv) (initialized : Bool)
    (textImage : Image) : String × ℚ :=
  if initialized = false then ("0", 0)
  else if textImage.isEmpty then ("0", 0)
  else
    let preprocessed := classifierPreprocess cfg textImage
    if preprocessed.isEmpty then ("0", 0)
    else
      let outputs := env.run preprocessed
      if outputs.isEmpty then ("0", 0)
      else postprocess outputs

/-! ## Concrete instances used by witnesses and counterexamples -/

/-- 30×30 box centered at (100, 0). -/
def boxA : TextBox := ⟨⟨85, -15⟩, ⟨115, -15⟩, ⟨115, 15⟩, ⟨85, 15⟩⟩

/-- 2×2 box centered at (0, 5). -/
def boxB : TextBox := ⟨⟨-1, 4⟩, ⟨1, 4⟩, ⟨1, 6⟩, ⟨-1, 6⟩⟩

/-- 30×30 box centered at (50, 10). -/
def boxC : TextBox := ⟨⟨35, -5⟩, ⟨65, -5⟩, ⟨65, 25⟩, ⟨35, 25⟩⟩

def imgStd : Image := { rows := 640, cols := 480, tag := 0 }

def cfgSort : OCRPipelineConfig :=
  { useDocPreprocessing := false, useClassification := false
    enableVisualization := false, sortResults := true, clsThresh := 9 / 10 }

/-- Detection finds `boxA`, `boxB`, `boxC`; every crop succeeds and is
recognized with confidence 1. -/
def envThreeBoxes : PipelineEnv :=
  { docPreprocess := fun i => { success := true, processedImage := i }
    detect := fun _ => [boxA, boxB, boxC]
    getRotateCropImage := fun _ _ => { rows := 10, cols := 10, tag := 0 }
    classify := fun _ => ("0", 1)
    rotate180 := id
    recognize := fun _ => ("x", 1) }

/-- Detection finds nothing. -/
def envNoBoxes : PipelineEnv :=
  { envThreeBoxes with detect := fun _ => [] }

/-- A request that passes every `Validate` check. -/
def reqValid : OCRRequest := { defaultOCRRequest with file := "aGVsbG8=" }

/-- A valid request except `fileType = 0` (PDF). -/
def reqPdf : OCRRequest := { reqValid with fileType := 0 }

/-- A handler environment whose downstream would succeed: loading, pushing
and waiting all work. -/
def envHandlerOk : HandlerEnv :=
  { loadImage := fun _ => Except.ok imgStd
    pushTask := fun _ _ => true
    waitResult := fun _ => some ([], imgStd)
    taskId := 1
    visUrl := "" }

/-- A result store in which no task result ever appears. -/
def storeNever : ℕ → ℤ → Option TaskResultM := fun _ _ => none

/-- A handler environment whose wait loop runs against `storeNever` with 3
wakeups before the deadline. -/
def envHandlerTimeout : HandlerEnv :=
  { envHandlerOk with waitResult := fun id => waitForResult storeNever 3 id }

/-- A PDF render configuration with `dpi` inside [72, 300] but above its
own `maxDpi` field. -/
def cfgBadDpi : PDFRenderConfig :=
  { defaultPDFRenderConfig with dpi := 200, maxDpi := 100 }

/-- Valid render configuration with `maxPages = 2`. -/
def cfgTwoPages : PDFRenderConfig := { defaultPDFRenderConfig with maxPages := 2 }

/-- An unencrypted 3-page document; every page renders successfully. -/
def docThree : PdfDocument := { locked := false, numPages := 3 }

def envPoppler3 : PopplerEnv :=
  { loadDocument := fun _ => some docThree
    renderOutcome := fun i =>
      { success := true, image := { rows := 100, cols := 80, tag := i }
        errorCode := pdfSUCCESS, errorMsg := "" } }

def pdfBytes : List ℕ := [37, 80, 68, 70]

/-- A softmax-normalized 2-class output tensor, class 1 winning. -/
def tensor180 : Tensor := { shape := [1, 2], data := some [1 / 4, 3 / 4] }

def cfgCls : ClassifierConfig := { inputWidth := 160, inputHeight := 80 }

def envClsEmptyRun : ClassifierEnv := { run := fun _ => [] }

def envClsBadShape : ClassifierEnv :=
  { run := fun _ => [{ shape := [1, 4], data := some [0, 0, 0, 0] }] }

/-- A valid request except an out-of-range detection threshold. -/
def reqBadThresh : OCRRequest := { reqValid with textDetThresh := 2 }

/-- A render configuration with `maxPages` below the allowed minimum. -/
def cfgBadPages : PDFRenderConfig := { defaultPDFRenderConfig with maxPages := 0 }

/-! ## Properties of the reading-order sort -/

/-- `compareOCRResults` only looks at the box, never at the index. -/
theorem compareOCRResults_index (a b : PipelineOCRResult) (m k : ℤ) :
    compareOCRResults { a with index := m } { b with index := k } =
      compareOCRResults a b := rfl

/-- `sameRow` only looks at the box, never at the index. -/
theorem sameRow_index (a b : PipelineOCRResult) (m k : ℤ) :
    sameRow { a with index := m } { b with index := k } ↔ sameRow a b :=
  Iff.rfl

/-- The comparator is asymmetric: both orders take the same branch (the
row threshold and the y-distance are symmetric) and each branch is a strict
comparison. -/
theorem compareOCRResults_asymm (a b : PipelineOCRResult) :
    compareOCRResults a b = true → compareOCRResults b a = false := by
  simp only [compareOCRResults]
  rw [abs_sub_comm b.getCenter.y a.getCenter.y, min_comm b.rectHeight a.rectHeight]
  intro h
  split_ifs at h ⊢ with hc
  · simp only [decide_eq_true_eq] at h
    simp only [decide_eq_false_iff_not]
    exact lt_asymm h
  · simp only [decide_eq_true_eq] at h
    simp only [decide_eq_false_iff_not]
    exact lt_asymm h

/-- Inserting into a list whose adjacent pairs are never inverted keeps
that shape, for any asymmetric comparator (no transitivity needed). -/
theorem chain'_orderedInsertBy {α : Type} (lt : α → α → Bool)
    (hasym : ∀ a b, lt a b = true → lt b a = false) (x : α) :
    ∀ l : List α, l.Chain' (fun a b => lt b a = false) →
      (orderedInsertBy lt x l).Chain' (fun a b => lt b a = false)
  | [], _ => by simp [orderedInsertBy]
  | h :: t, hl => by
    rw [orderedInsertBy]
    by_cases hx : lt x h = true
    · rw [if_pos hx]
      exact List.Chain'.cons (hasym x h hx) hl
    · rw [if_neg hx]
      refine List.chain'_cons'.mpr ⟨?_, chain'_orderedInsertBy lt hasym x t hl.tail⟩
      intro z hz
      cases t with
      | nil =>
        simp only [orderedInsertBy, List.head?_cons, Option.mem_def,
          Option.some.injEq] at hz
        subst hz
        exact Bool.eq_false_iff.mpr hx
      | cons h' t' =>
        rw [orderedInsertBy] at hz
        by_cases hx' : lt x h' = true
        · rw [if_pos hx'] at hz
          simp only [List.head?_cons, Option.mem_def, Option.some.injEq] at hz
          subst hz
          exact Bool.eq_false_iff.mpr hx
        · rw [if_neg hx'] at hz
          simp only [List.head?_cons, Option.mem_def, Option.some.injEq] at hz
          subst hz
          exact (List.chain'_cons.mp hl).1

/-- Insertion sort with any asymmetric comparator leaves no adjacent
inversion. -/
theorem chain'_insertionSortBy {α : Type} (lt : α → α → Bool)
    (hasym : ∀ a b, lt a b = true → lt b a = false) :
    ∀ l : List α, (insertionSortBy lt l).Chain' (fun a b => lt b a = false)
  | [] => by simp [insertionSortBy]
  | b :: l => by
    rw [insertionSortBy]
    exact chain'_orderedInsertBy lt hasym b _ (chain'_insertionSortBy lt hasym l)

/-- Re-indexing preserves the no-adjacent-inversion shape. -/
theorem chain'_reindexFrom :
    ∀ (l : List PipelineOCRResult) (n : ℤ),
      l.Chain' (fun a b => compareOCRResults b a = false) →
        (reindexFrom n l).Chain' (fun a b => compareOCRResults b a = false)
  | [], _, _ => by simp [reindexFrom]
  | [x], _, _ => by simp [reindexFrom]
  | x :: y :: t, n, h => by
    rw [reindexFrom]
    refine List.chain'_cons'.mpr
      ⟨?_, chain'_reindexFrom (y :: t) (n + 1) (List.chain'_cons.mp h).2⟩
    intro z hz
    rw [reindexFrom] at hz
    simp only [List.head?_cons, Option.mem_def, Option.some.injEq] at hz
    subst hz
    rw [compareOCRResults_index]
    exact (List.chain'_cons.mp h).1

/-- After `reindexFrom n`, the element at position `i` has index `n + i`. -/
theorem reindexFrom_index :
    ∀ (l : List PipelineOCRResult) (n : ℤ) (i : ℕ) (r : PipelineOCRResult),
      (reindexFrom n l).get? i = some r → r.index = n + i
  | [], _, _, _ => by simp [reindexFrom]
  | x :: t, n, 0, r => by
    simp only [reindexFrom, List.get?_cons_zero, Option.some.injEq]
    intro h
    rw [← h]
    simp
  | x :: t, n, i + 1, r => by
    simp only [reindexFrom, List.get?_cons_succ]
    intro h
    have := reindexFrom_index t (n + 1) i r h
    push_cast
    omega

/-- Adjacent entries of the finalized list are never same-row inverted. -/
theorem finalizeResults_chain (cfg : OCRPipelineConfig)
    (rs : List PipelineOCRResult) (hs : cfg.sortResults = true) :
    (finalizeResults cfg rs).Chain'
      (fun a b => sameRow a b → a.getCenter.x ≤ b.getCenter.x) := by
  have key : ∀ l : List PipelineOCRResult,
      l.Chain' (fun a b => compareOCRResults b a = false) →
        l.Chain' (fun a b => sameRow a b → a.getCenter.x ≤ b.getCenter.x) := by
    intro l hl
    refine hl.imp ?_
    intro a b hab hrow
    unfold sameRow at hrow
    rw [abs_sub_comm, min_comm] at hrow
    simp only [compareOCRResults] at hab
    rw [if_pos hrow] at hab
    simp only [decide_eq_false_iff_not] at hab
    exact le_of_not_lt hab
  by_cases h : rs.isEmpty
  · rw [List.isEmpty_iff] at h
    subst h
    simp [finalizeResults]
  · rw [Bool.not_eq_true] at h
    have hcond : (cfg.sortResults && !rs.isEmpty) = true := by rw [hs, h]; rfl
    rw [finalizeResults, if_pos hcond]
    exact key _ (chain'_reindexFrom _ 0
      (chain'_insertionSortBy compareOCRResults compareOCRResults_asymm rs))

/-- Every entry of the finalized list carries its position as index. -/
theorem finalizeResults_index (cfg : OCRPipelineConfig)
    (rs : List PipelineOCRResult) (hs : cfg.sortResults = true)
    (i : ℕ) (r : PipelineOCRResult)
    (h : (finalizeResults cfg rs).get? i = some r) : r.index = (i : ℤ) := by
  by_cases he : rs.isEmpty
  · rw [List.isEmpty_iff] at he
    subst he
    simp [finalizeResults] at h
  · rw [Bool.not_eq_true] at he
    have hcond : (cfg.sortResults && !rs.isEmpty) = true := by rw [hs, he]; rfl
    rw [finalizeResults, if_pos hcond] at h
    have := reindexFrom_index _ 0 i r h
    omega

/-- `process` publishes either an empty list or a finalized list. -/
theorem process_results_cases (cfg : OCRPipelineConfig) (env : PipelineEnv)
    (init : Bool) (img : Image) :
    (process cfg env init img).results = [] ∨
      ∃ rs, (process cfg env init img).results = finalizeResults cfg rs := by
  simp only [process]
  split_ifs with h1 h2 h3
  · exact Or.inl rfl
  · exact Or.inl rfl
  · exact Or.inl rfl
  · exact Or.inr ⟨_, rfl⟩

/-! ## Claim C1 -/

/-- C1 (amended): with `sortResults` enabled, every published entry's
`index` equals its position in the final list, and for any two ADJACENT
entries `a, b` whose vertical center distance is below half the minimum
bounding-rectangle height, `center_x(a) ≤ center_x(b)`.  (The original
claim, quantifying over arbitrary pairs, fails: the comparator is not
transitive, see `c1_claim_counterexample`.) -/
theorem c1_reading_order_sorted (cfg : OCRPipelineConfig) (env : PipelineEnv)
    (init : Bool) (img : Image) (hs : cfg.sortResults = true) :
    (∀ i r, (process cfg env init img).results.get? i = some r → r.index = (i : ℤ)) ∧
    List.Chain' (fun a b => sameRow a b → a.getCenter.x ≤ b.getCenter.x)
      (process cfg env init img).results := by
  rcases process_results_cases cfg env init img with h | ⟨rs, h⟩
  · rw [h]
    exact ⟨by simp, by simp⟩
  · rw [h]
    exact ⟨fun i r hr => finalizeResults_index cfg rs hs i r hr,
      finalizeResults_chain cfg rs hs⟩

/-- Witness for C1: the amended invariant evaluated on a concrete
three-box run. -/
theorem c1_reading_order_sorted_witness :
    List.Chain' (fun a b => sameRow a b → a.getCenter.x ≤ b.getCenter.x)
      (process cfgSort envThreeBoxes true imgStd).results :=
  (c1_reading_order_sorted cfgSort envThreeBoxes true imgStd rfl).2

/-- Counterexample to C1 as stated: on a concrete three-box input the
published list contains a same-row pair `(a, b)` with `index(a) < index(b)`
but `center_x(a) > center_x(b)` — the pair is not adjacent, and the
comparator's row tolerance is not transitive across the interleaving box. -/
theorem c1_claim_counterexample :
    ∃ a ∈ (process cfgSort envThreeBoxes true imgStd).results,
      ∃ b ∈ (process cfgSort envThreeBoxes true imgStd).results,
        sameRow a b ∧ a.index < b.index ∧ ¬(a.getCenter.x < b.getCenter.x) := by
  with_unfolding_all decide

/-! ## Claim C5 -/

/-- C5: when detection returns no boxes on a nonempty input to an
initialized pipeline, `process` succeeds, the result list is empty, and
the statistics record zero detected, rotated and recognized boxes. -/
theorem c5_empty_detection (cfg : OCRPipelineConfig) (env : PipelineEnv)
    (img : Image) (himg : img.isEmpty = false)
    (hdet : env.detect (processedImageOf cfg env img) = []) :
    (process cfg env true img).ok = true ∧
    (process cfg env true img).results = [] ∧
    (process cfg env true img).stats.detectedBoxes = 0 ∧
    (process cfg env true img).stats.rotatedBoxes = 0 ∧
    (process cfg env true img).stats.recognizedBoxes = 0 := by
  simp [process, himg, hdet, zeroStats]

/-- Witness for C5: a concrete blank-page run. -/
theorem c5_empty_detection_witness :
    (process cfgSort envNoBoxes true imgStd).ok = true ∧
    (process cfgSort envNoBoxes true imgStd).results = [] ∧
    (process cfgSort envNoBoxes true imgStd).stats.detectedBoxes = 0 ∧
    (process cfgSort envNoBoxes true imgStd).stats.rotatedBoxes = 0 ∧
    (process cfgSort envNoBoxes true imgStd).stats.recognizedBoxes = 0 :=
  c5_empty_detection cfgSort envNoBoxes imgStd rfl rfl

/-! ## Claim C2 -/

/-- C2 (amended): a `fileType = 0` (PDF) request with a nonempty `file`
field is rejected by `Validate` and answered with HTTP 400 and the error
message "Unsupported fileType: PDF is not implemented (fileType=0)";
`PDFHandler` exists but is not invoked by the `/ocr` endpoint. -/
theorem c2_pdf_rejected (env : HandlerEnv) (req : OCRRequest)
    (hty : req.fileType = 0) (hf : req.file ≠ "") :
    handleRequest env req =
      (400, ResponseBody.error ErrorCode.invalidParameter
        "Unsupported fileType: PDF is not implemented (fileType=0)") := by
  have hv : req.validate =
      some "Unsupported fileType: PDF is not implemented (fileType=0)" := by
    unfold OCRRequest.validate
    rw [if_neg hf, if_pos (by rw [hty]; decide)]
  simp [handleRequest, hv]

/-- Witness for C2: a concrete PDF request against a fully functional
downstream environment. -/
theorem c2_pdf_rejected_witness :
    handleRequest envHandlerOk reqPdf =
      (400, ResponseBody.error ErrorCode.invalidParameter
        "Unsupported fileType: PDF is not implemented (fileType=0)") :=
  c2_pdf_rejected envHandlerOk reqPdf rfl (by with_unfolding_all decide)

/-- Counterexample to C2 as stated: with image loading, task admission and
the result wait all functional, a valid request with `fileType = 0` is
still answered 400 with the not-implemented message, not processed as a
PDF. -/
theorem c2_claim_counterexample :
    (handleRequest envHandlerOk reqPdf).1 = 400 ∧
    (handleRequest envHandlerOk reqPdf).2 =
      ResponseBody.error ErrorCode.invalidParameter
        "Unsupported fileType: PDF is not implemented (fileType=0)" := by
  with_unfolding_all decide

/-! ## Claim C3 -/

/-- If the store never holds the task id at any lookup within the
deadline, the wait loop runs out and reports failure. -/
theorem waitLoop_none (store : ℕ → ℤ → Option TaskResultM) (id : ℤ) :
    ∀ (fuel k : ℕ), (∀ j, k ≤ j → j ≤ k + fuel → store j id = none) →
      waitLoop store id k fuel = none
  | 0, k, h => by
    rw [waitLoop]
    exact h k le_rfl (by omega)
  | fuel + 1, k, h => by
    rw [waitLoop, h k le_rfl (by omega)]
    exact waitLoop_none store id fuel (k + 1) fun j h1 h2 => h j (by omega) (by omega)

/-- C3 (amended): when the submitted task's result never appears in the
result store within the per-request timeout, `WaitForResult` returns
failure (the request thread stops waiting), and `HandleRequest` responds
with HTTP status 500 — not 504 — and an error body. -/
theorem c3_wait_timeout (store : ℕ → ℤ → Option TaskResultM) (waits : ℕ)
    (env : HandlerEnv) (req : OCRRequest) (img : Image)
    (hwait : env.waitResult = fun id => waitForResult store waits id)
    (hstore : ∀ j, j ≤ waits → store j env.taskId = none)
    (hval : req.validate = none)
    (hload : env.loadImage req = Except.ok img)
    (hpush : env.pushTask img env.taskId = true) :
    waitForResult store waits env.taskId = none ∧
    handleRequest env req =
      (500, ResponseBody.error ErrorCode.internalError
        "Failed to get OCR results or timeout") := by
  have hnone : waitForResult store waits env.taskId = none := by
    unfold waitForResult
    exact waitLoop_none store env.taskId waits 0 fun j h1 h2 => hstore j (by omega)
  refine ⟨hnone, ?_⟩
  simp [handleRequest, hval, hload, hpush, hwait, hnone]

/-- Witness for C3: a concrete run against a store that never fills. -/
theorem c3_wait_timeout_witness :
    waitForResult storeNever 3 envHandlerTimeout.taskId = none ∧
    handleRequest envHandlerTimeout reqValid =
      (500, ResponseBody.error ErrorCode.internalError
        "Failed to get OCR results or timeout") :=
  c3_wait_timeout storeNever 3 envHandlerTimeout reqValid imgStd rfl
    (fun _ _ => rfl) (by with_unfolding_all decide) rfl rfl

/-- Counterexample to C3 as stated: on a concrete timed-out request the
status is 500, not the claimed 504. -/
theorem c3_claim_counterexample :
    (handleRequest envHandlerTimeout reqValid).1 = 500 ∧
    (handleRequest envHandlerTimeout reqValid).1 ≠ 504 := by
  with_unfolding_all decide

/-! ## Claim C4 -/

/-- C4 (amended): `Validate` succeeds exactly when the `file` field is
nonempty, `fileType = 1`, and the four thresholds are inside their ranges
— the claim's range conditions alone are not sufficient, since
`fileType ≠ 1` is also rejected; on any failure `HandleRequest` responds
400 with the parameter-specific message. -/
theorem c4_validate_ranges (req : OCRRequest) (env : HandlerEnv) :
    (req.validate = none ↔
      (req.file ≠ "" ∧ req.fileType = 1 ∧
       0 ≤ req.textDetThresh ∧ req.textDetThresh ≤ 1 ∧
       0 ≤ req.textDetBoxThresh ∧ req.textDetBoxThresh ≤ 1 ∧
       1 ≤ req.textDetUnclipR ∧ req.textDetUnclipR ≤ 3 ∧
       0 ≤ req.textRecScoreThresh ∧ req.textRecScoreThresh ≤ 1)) ∧
    (∀ msg, req.validate = some msg →
      handleRequest env req =
        (400, ResponseBody.error ErrorCode.invalidParameter msg)) := by
  constructor
  · constructor
    · intro hv
      unfold OCRRequest.validate at hv
      split_ifs at hv with h1 h2 h3 h4 h5 h6
      push_neg at h3 h4 h5 h6
      exact ⟨h1, not_not.mp h2, h3.1, h3.2, h4.1, h4.2, h5.1, h5.2, h6.1, h6.2⟩
    · rintro ⟨hf, hty, hdt0, hdt1, hb0, hb1, hu1, hu3, hr0, hr1⟩
      unfold OCRRequest.validate
      rw [if_neg hf, if_neg (not_not_intro hty),
        if_neg (by push_neg; exact ⟨hdt0, hdt1⟩),
        if_neg (by push_neg; exact ⟨hb0, hb1⟩),
        if_neg (by push_neg; exact ⟨hu1, hu3⟩),
        if_neg (by push_neg; exact ⟨hr0, hr1⟩)]
  · intro msg hm
    simp [handleRequest, hm]

/-- Witness for C4: a concrete out-of-range `textDetThresh` is answered
400 with its specific message. -/
theorem c4_validate_ranges_witness :
    handleRequest envHandlerOk reqBadThresh =
      (400, ResponseBody.error ErrorCode.invalidParameter
        "textDetThresh must be in range [0.0, 1.0]") :=
  (c4_validate_ranges reqBadThresh envHandlerOk).2
    "textDetThresh must be in range [0.0, 1.0]" (by with_unfolding_all decide)

/-- Counterexample to C4 as stated: a request with nonempty `file` and all
four thresholds inside their ranges is still rejected, because
`fileType = 0` also fails validation — the claim's "exactly when" list is
incomplete. -/
theorem c4_claim_counterexample :
    reqPdf.file ≠ "" ∧
    (0 ≤ reqPdf.textDetThresh ∧ reqPdf.textDetThresh ≤ 1) ∧
    (0 ≤ reqPdf.textDetBoxThresh ∧ reqPdf.textDetBoxThresh ≤ 1) ∧
    (1 ≤ reqPdf.textDetUnclipR ∧ reqPdf.textDetUnclipR ≤ 3) ∧
    (0 ≤ reqPdf.textRecScoreThresh ∧ reqPdf.textRecScoreThresh ≤ 1) ∧
    reqPdf.validate ≠ none := by
  with_unfolding_all decide

/-! ## Claim C6 -/

/-- A configuration that passes `Validate` has all six bounds. -/
theorem validate_none_bounds (c : PDFRenderConfig) (h : c.validate = none) :
    72 ≤ c.dpi ∧ c.dpi ≤ c.maxDpi ∧ 1 ≤ c.maxPages ∧ c.maxPages ≤ 100 ∧
    1 ≤ c.maxConcurrentRenders ∧ c.maxConcurrentRenders ≤ 16 := by
  unfold PDFRenderConfig.validate at h
  split_ifs at h with h1 h2 h3
  push_neg at h1 h2 h3
  exact ⟨h1.1, h1.2, h2.1, h2.2, h3.1, h3.2⟩

/-- C6: for a well-formed, unencrypted PDF with at least one page and a
valid configuration, `RenderFromMemory` produces exactly
`min(totalPages, maxPages)` page results, and every page result's index is
below that cap — pages beyond `maxPages` are never rendered nor present. -/
theorem c6_max_pages (env : PopplerEnv) (data : List ℕ) (config : PDFRenderConfig)
    (doc : PdfDocument) (hload : env.loadDocument data = some doc)
    (hlock : doc.locked = false) (hpages : 1 ≤ doc.numPages)
    (hvalid : config.validate = none) :
    ((renderFromMemory env data config).pages.length : ℤ) =
      min doc.numPages config.maxPages ∧
    ∀ p ∈ (renderFromMemory env data config).pages,
      0 ≤ p.pageIndex ∧ p.pageIndex < min doc.numPages config.maxPages := by
  have hmp := (validate_none_bounds config hvalid).2.2.1
  have hne : ¬(doc.numPages = 0) := by omega
  have hres : (renderFromMemory env data config).pages =
      renderPagesParallel env (min doc.numPages config.maxPages).toNat := by
    simp only [renderFromMemory, hvalid, hload, hlock, if_false, hne, Bool.false_eq_true]
    split_ifs <;> rfl
  rw [hres]
  constructor
  · simp only [renderPagesParallel, List.length_map, List.length_range]
    omega
  · intro p hp
    simp only [renderPagesParallel, List.mem_map, List.mem_range] at hp
    obtain ⟨i, hi, hpi⟩ := hp
    rw [← hpi]
    refine ⟨Int.ofNat_nonneg i, ?_⟩
    show (i : ℤ) < min doc.numPages config.maxPages
    omega

/-- Witness for C6: a 3-page document with `maxPages = 2` renders exactly
2 pages. -/
theorem c6_max_pages_witness :
    ((renderFromMemory envPoppler3 pdfBytes cfgTwoPages).pages.length : ℤ) = min 3 2 :=
  (c6_max_pages envPoppler3 pdfBytes cfgTwoPages docThree rfl rfl (by decide)
    (by decide)).1

/-! ## Claim C7 -/

/-- C7 (amended): `PDFRenderConfig::Validate` accepts exactly when
`72 ≤ dpi ≤ maxDpi` (the configuration's own `maxDpi` field, default 300 —
not the fixed constant 300 the claim states), `1 ≤ maxPages ≤ 100` and
`1 ≤ maxConcurrentRenders ≤ 16`; on failure `RenderFromMemory` returns
`CONFIG_ERROR` with no page rendered. -/
theorem c7_validate_exact (c : PDFRenderConfig) (env : PopplerEnv) (data : List ℕ) :
    (c.validate = none ↔
      (72 ≤ c.dpi ∧ c.dpi ≤ c.maxDpi ∧ 1 ≤ c.maxPages ∧ c.maxPages ≤ 100 ∧
       1 ≤ c.maxConcurrentRenders ∧ c.maxConcurrentRenders ≤ 16)) ∧
    (∀ msg, c.validate = some msg →
      renderFromMemory env data c =
        { emptyPDFRenderResult with errorCode := pdfCONFIG_ERROR, errorMsg := msg }) := by
  refine ⟨⟨validate_none_bounds c, ?_⟩, ?_⟩
  · rintro ⟨h1, h2, h3, h4, h5, h6⟩
    unfold PDFRenderConfig.validate
    rw [if_neg (by push_neg; exact ⟨h1, h2⟩), if_neg (by push_neg; exact ⟨h3, h4⟩),
      if_neg (by push_neg; exact ⟨h5, h6⟩)]
  · intro msg hm
    simp [renderFromMemory, hm]

/-- Witness for C7: a configuration with `maxPages = 0` is rejected and
`RenderFromMemory` returns `CONFIG_ERROR` without touching the document. -/
theorem c7_validate_exact_witness :
    renderFromMemory envPoppler3 pdfBytes cfgBadPages =
      { emptyPDFRenderResult with
        errorCode := pdfCONFIG_ERROR
        errorMsg := "pdfMaxPages must be in range [1, 100]" } :=
  (c7_validate_exact cfgBadPages envPoppler3 pdfBytes).2
    "pdfMaxPages must be in range [1, 100]" (by decide)

/-- Counterexample to C7 as stated: `dpi = 200` lies inside [72, 300], and
`maxPages`, `maxConcurrentRenders` are inside their ranges, yet validation
fails because the configuration's `maxDpi` field is 100. -/
theorem c7_claim_counterexample :
    (72 ≤ cfgBadDpi.dpi ∧ cfgBadDpi.dpi ≤ 300) ∧
    (1 ≤ cfgBadDpi.maxPages ∧ cfgBadDpi.maxPages ≤ 100) ∧
    (1 ≤ cfgBadDpi.maxConcurrentRenders ∧ cfgBadDpi.maxConcurrentRenders ≤ 16) ∧
    cfgBadDpi.validate ≠ none := by
  decide

/-! ## Claim C8 -/

/-- C8: a request whose `Authorization` header does not begin with
"token " (in particular a missing or empty header) is answered 401 with an
error body, and the OCR handler is never invoked — the dispatch outcome is
independent of the route handler; any header beginning with "token "
passes authorization and reaches the handler. -/
theorem c8_auth_rejects (header : List Char) (f g : Unit → ℕ × ResponseBody) :
    (startsWith tokenMarker header = false →
      dispatchOcr header f =
        (401, ResponseBody.error ErrorCode.unauthorized
          "Missing or invalid Authorization token") ∧
      dispatchOcr header f = dispatchOcr header g) ∧
    (startsWith tokenMarker header = true → dispatchOcr header f = f ()) := by
  constructor
  · intro h
    have hrej : authRejects header = true := by
      unfold authRejects
      rw [h]
      simp
    refine ⟨?_, ?_⟩ <;> simp [dispatchOcr, hrej]
  · intro h
    have hne : header.isEmpty = false := by
      cases header with
      | nil => simp [tokenMarker, startsWith] at h
      | cons c t => rfl
    have hrej : authRejects header = false := by
      unfold authRejects
      rw [h, hne]
      rfl
    simp [dispatchOcr, hrej]

/-- Witness for C8: the empty (missing) header is rejected with 401 no
matter what the handler would answer; a concrete "token abc" header
reaches the handler. -/
theorem c8_auth_rejects_witness :
    dispatchOcr [] (fun _ => handleRequest envHandlerOk reqValid) =
      (401, ResponseBody.error ErrorCode.unauthorized
        "Missing or invalid Authorization token") ∧
    dispatchOcr ['t', 'o', 'k', 'e', 'n', ' ', 'a', 'b', 'c']
        (fun _ => (200, ResponseBody.ocrSuccess [] "")) =
      (200, ResponseBody.ocrSuccess [] "") :=
  ⟨((c8_auth_rejects [] (fun _ => handleRequest envHandlerOk reqValid)
      (fun _ => (0, ResponseBody.error ErrorCode.success ""))).1 (by decide)).1,
   (c8_auth_rejects ['t', 'o', 'k', 'e', 'n', ' ', 'a', 'b', 'c']
      (fun _ => (200, ResponseBody.ocrSuccess [] ""))
      (fun _ => (200, ResponseBody.ocrSuccess [] ""))).2 (by decide)⟩

/-! ## Claim C9 -/

/-- C9: on a 2-class output tensor, `Postprocess` returns the label of the
argmax class and a confidence equal to the raw maximum output element — no
softmax transformation is applied to the model output. -/
theorem c9_postprocess_argmax (t : Tensor) (rest : List Tensor) (a b : ℚ)
    (hshape : 2 ≤ t.shape.length) (hlast : t.shape.getLastD 0 = 2)
    (hdata : t.data = some [a, b]) :
    postprocess (t :: rest) = (if a < b then "180" else "0", max a b) := by
  have h2 : ¬(t.shape.length < 2) := not_lt.mpr hshape
  simp only [postprocess, h2, if_false, hlast, ne_eq, not_true_eq_false, hdata,
    List.getD_cons_zero, List.getD_cons_succ, classifierLabels]
  split_ifs with hab
  · rw [max_eq_right hab.le]
    rfl
  · rw [max_eq_left (not_lt.mp hab)]
    rfl

/-- Witness for C9: a concrete softmax-normalized tensor `[1/4, 3/4]`
yields label "180" with raw confidence 3/4. -/
theorem c9_postprocess_argmax_witness :
    postprocess [tensor180] = ("180", 3 / 4) := by
  have h := c9_postprocess_argmax tensor180 [] (1 / 4) (3 / 4) (by decide)
    (by decide) rfl
  rw [h, if_pos (by norm_num), max_eq_right (by norm_num)]

/-! ## Claim C10 -/

/-- C10: `Classify` returns ("0", 0.0) on every error path — classifier
not initialized, empty input image, empty preprocessing result, no output
tensors, or an output whose class count differs from 2 — and downstream
`NeedsRotation` maps label "0" to "no rotation" at any confidence. -/
theorem c10_classify_error_totality (cfg : ClassifierConfig) (env : ClassifierEnv)
    (img : Image) (th c : ℚ) :
    (classify cfg env false img = ("0", 0)) ∧
    (img.isEmpty = true → classify cfg env true img = ("0", 0)) ∧
    ((classifierPreprocess cfg img).isEmpty = true →
      classify cfg env true img = ("0", 0)) ∧
    (env.run (classifierPreprocess cfg img) = [] →
      classify cfg env true img = ("0", 0)) ∧
    (∀ t rest, env.run (classifierPreprocess cfg img) = t :: rest →
      t.shape.getLastD 0 ≠ 2 → classify cfg env true img = ("0", 0)) ∧
    needsRotation th "0" c = false := by
  refine ⟨by simp [classify], ?_, ?_, ?_, ?_, by simp [needsRotation]⟩
  · intro h
    simp [classify, h]
  · intro h
    by_cases himg : img.isEmpty <;> simp [classify, himg, h]
  · intro h
    by_cases h1 : img.isEmpty <;> by_cases h2 : (classifierPreprocess cfg img).isEmpty <;>
      simp [classify, h1, h2, h]
  · intro t rest hrun hshape
    by_cases h1 : img.isEmpty <;> by_cases h2 : (classifierPreprocess cfg img).isEmpty <;>
      simp only [classify, h1, h2, hrun, List.isEmpty_cons, if_false, if_true,
        Bool.false_eq_true] <;> try rfl
    by_cases hlen : t.shape.length < 2
    · simp [postprocess, hlen]
    · simp only [postprocess]
      rw [if_neg hlen, if_pos hshape]
      simp

/-- Witness for C10: a run returning no tensors and a run returning a
4-class tensor both yield ("0", 0). -/
theorem c10_classify_error_totality_witness :
    classify cfgCls envClsEmptyRun true imgStd = ("0", 0) ∧
    classify cfgCls envClsBadShape true imgStd = ("0", 0) :=
  ⟨(c10_classify_error_totality cfgCls envClsEmptyRun imgStd 0 0).2.2.2.1 rfl,
   (c10_classify_error_totality cfgCls envClsBadShape imgStd 0 0).2.2.2.2.1
     { shape := [1, 4], data := some [0, 0, 0, 0] } [] rfl (by decide)⟩

end DXNNOCR
